import Mathlib

/-!
Shallow embedding of the authentication/authorization subsystem and the OAuth
account-linking flow of the club-membership backend (`src/auth.rs`,
`src/error.rs`, the Google OAuth callback of `src/handlers.rs`, and the data
shapes of `src/models.rs`).

Conventions of the embedding:
* wall-clock instants are unix seconds as `Int` (chrono's `timestamp()` is an
  `i64`), passed explicitly wherever the Rust code reads the clock;
* the process-wide signing secret (`JWT_SECRET`) is passed explicitly;
* database reads and writes are pure functions over an explicit `Db` state,
  with SQL row order modelled as list order and `fetch_optional` as
  `List.find?`;
* fallible operations return `Option` or `Except AppError`.
-/

/-- Hexadecimal digit character for a value below 16: `0`–`9` then lowercase
`a`–`f`, as in the uuid crate's canonical rendering. -/
def hexChar (n : Nat) : Char :=
  if n < 10 then Char.ofNat (48 + n) else Char.ofNat (87 + n)

/-- Numeric value of a hexadecimal digit character; accepts lowercase and
uppercase letters, as the uuid crate's parser does. `none` otherwise. -/
def hexVal (c : Char) : Option Nat :=
  if 48 ≤ c.toNat ∧ c.toNat ≤ 57 then some (c.toNat - 48)
  else if 97 ≤ c.toNat ∧ c.toNat ≤ 102 then some (c.toNat - 87)
  else if 65 ≤ c.toNat ∧ c.toNat ≤ 70 then some (c.toNat - 55)
  else none

/-- Big-endian fixed-width rendering of the low `k` hexadecimal digits of `n`. -/
def toHexBE : Nat → Nat → List Char
  | 0, _ => []
  | k + 1, n => hexChar (n / 16 ^ k % 16) :: toHexBE k n

/-- Consume exactly `k` hexadecimal characters from the front of the list,
extending the accumulator big-endian; fails on a non-hex character or
exhausted input. -/
def readHex : Nat → List Char → Nat → Option (Nat × List Char)
  | 0, cs, acc => some (acc, cs)
  | _ + 1, [], _ => none
  | k + 1, c :: cs, acc =>
    match hexVal c with
    | some v => readHex k cs (acc * 16 + v)
    | none => none

/-- A 128-bit UUID value (the uuid crate's `Uuid`). -/
structure Uuid where
  val : Fin (2 ^ 128)
deriving DecidableEq

/-- Canonical hyphenated rendering `xxxxxxxx-xxxx-xxxx-xxxx-xxxxxxxxxxxx` in
lowercase hex, as produced by the uuid crate's `to_string` (used by
`Claims::new` for the `sub` field). -/
def Uuid.toString (u : Uuid) : String :=
  ⟨toHexBE 8 (u.val.val / 16 ^ 24) ++
    ('-' :: toHexBE 4 (u.val.val / 16 ^ 20) ++
      ('-' :: toHexBE 4 (u.val.val / 16 ^ 16) ++
        ('-' :: toHexBE 4 (u.val.val / 16 ^ 12) ++
          ('-' :: toHexBE 12 u.val.val))))⟩

/-- Model of the uuid crate's `Uuid::parse_str`, restricted to the canonical
hyphenated 8-4-4-4-12 format (the crate additionally accepts a few other
textual forms; every string parsed in this development is either produced by
`Uuid.toString` or rejected by both parsers). -/
def Uuid.parse_str (s : String) : Option Uuid :=
  match readHex 8 s.data 0 with
  | some (a, '-' :: cs) =>
    match readHex 4 cs a with
    | some (b, '-' :: cs) =>
      match readHex 4 cs b with
      | some (c, '-' :: cs) =>
        match readHex 4 cs c with
        | some (d, '-' :: cs) =>
          match readHex 12 cs d with
          | some (e, []) => if h : e < 2 ^ 128 then some ⟨⟨e, h⟩⟩ else none
          | _ => none
        | _ => none
      | _ => none
    | _ => none
  | _ => none

/-- The JWT claim set of `src/auth.rs`: `Claims { sub: String, exp: i64 }`. -/
structure Claims where
  sub : String
  exp : Int
deriving DecidableEq

/-- `Claims::new` (src/auth.rs:41-46): `sub` is the user id rendered as a
string, `exp` is `now + Duration::hours(24)` in unix seconds. -/
def Claims.new (user_id : Uuid) (now : Int) : Claims :=
  { sub := Uuid.toString user_id, exp := now + 24 * 3600 }

/-- A JWT on the wire, as seen by `jsonwebtoken::decode`. `signed c s` stands
for a structurally well-formed token whose payload deserializes to `c` and
whose HMAC was produced with secret `s` (the MAC is idealized as collision
free, so the signature check amounts to comparing secrets); `malformed`
stands for any byte string `decode` rejects as unparseable. -/
inductive RawToken where
  | malformed
  | signed (claims : Claims) (secret : String)
deriving DecidableEq

/-- `create_token` (src/auth.rs:49-52): sign a fresh `Claims::new` claim set
with the process secret. The Rust function returns `Result` but can only err
if the signing primitive itself fails, which the idealized MAC never does. -/
def create_token (secret : String) (user_id : Uuid) (now : Int) : RawToken :=
  RawToken.signed (Claims.new user_id now) secret

/-- Model of `jsonwebtoken::decode::<Claims>` under `Validation::default()`
(src/auth.rs:79 and 106). Default validation checks the HS256 signature and
the `exp` claim with the crate's default leeway of 60 seconds: the claim set
is accepted unless `exp < now - 60`. -/
def decodeToken (secret : String) (now : Int) : RawToken → Option Claims
  | RawToken.malformed => none
  | RawToken.signed c s =>
    if s = secret then (if c.exp < now - 60 then none else some c) else none

/-- Details sqlx exposes on a database-side error, as read by
`AppError::into_response` (src/error.rs:36-37). -/
structure DbErrorInfo where
  code : Option String
  constraint : Option String
deriving DecidableEq

/-- The sqlx error shape distinguished by `AppError::into_response`: either a
database-side error with inspectable code/constraint, or anything else. -/
inductive SqlxError where
  | databaseErr (info : DbErrorInfo)
  | otherErr
deriving DecidableEq

/-- The error taxonomy of `src/error.rs` (`AppError`). The payload of
`InternalError` (an `anyhow::Error`) is modelled as its message string. -/
inductive AppError where
  | authError
  | databaseError (e : SqlxError)
  | validationError (msg : String)
  | badRequest (msg : String)
  | userExists
  | notFound
  | internalError (msg : String)
deriving DecidableEq

/-- `AppError::into_response` (src/error.rs:28-67), as the pair of the HTTP
status code and the message placed in the JSON body. -/
def AppError.into_response : AppError → Nat × String
  | AppError.authError => (401, "Authentication failed")
  | AppError.notFound => (404, "Resource not found")
  | AppError.databaseError e =>
    match e with
    | SqlxError.databaseErr info =>
      if info.code = some "23505" then
        if info.constraint = some "users_email_key" then
          (409, "User already exists")
        else (500, "Internal server error")
      else (500, "Internal server error")
    | SqlxError.otherErr => (500, "Internal server error")
  | AppError.validationError msg => (400, msg)
  | AppError.badRequest msg => (400, msg)
  | AppError.userExists => (409, "User already exists")
  | AppError.internalError _ => (500, "Internal server error")

/-- The `Authorization` header value as the guards observe it
(src/auth.rs:70-77): `badEncoding` is a value whose `to_str()` fails
(non-visible-ASCII bytes); `noBearer` is a decodable value on which
`strip_prefix("Bearer ")` fails; `bearer t` is a decodable value of the form
`"Bearer "` followed by bytes that `jsonwebtoken` sees as the token `t`. -/
inductive HeaderValue where
  | badEncoding
  | noBearer
  | bearer (t : RawToken)
deriving DecidableEq

/-- The request header state consulted by both guards: the first
`Authorization` header, if any. -/
structure ReqHeaders where
  authorization : Option HeaderValue
deriving DecidableEq

/-- The authenticated principal (`AuthUser` in src/auth.rs). -/
structure AuthUser where
  user_id : Uuid
deriving DecidableEq

/-- The elevated principal (`AdminUser` in src/auth.rs). -/
structure AdminUser where
  user_id : Uuid
deriving DecidableEq

/-- `<AuthUser as FromRequestParts>::from_request_parts` (src/auth.rs:69-85):
require the header, require it to decode to a string, require the `"Bearer "`
marker, decode the token, parse the `sub` claim as a UUID; every failure is
`AppError::AuthError`. -/
def AuthUser.from_request_parts (secret : String) (now : Int) (h : ReqHeaders) :
    Except AppError AuthUser :=
  match h.authorization with
  | none => Except.error AppError.authError
  | some HeaderValue.badEncoding => Except.error AppError.authError
  | some HeaderValue.noBearer => Except.error AppError.authError
  | some (HeaderValue.bearer t) =>
    match decodeToken secret now t with
    | none => Except.error AppError.authError
    | some td =>
      match Uuid.parse_str td.sub with
      | none => Except.error AppError.authError
      | some uid => Except.ok ⟨uid⟩

/-- `<AdminUser as FromRequestParts>::from_request_parts`
(src/auth.rs:96-125). The token-extraction code is duplicated verbatim from
the `AuthUser` extractor in the source, so it is duplicated here as well; the
role lookup `SELECT role FROM users WHERE id = $1` is abstracted as the
function `fetch_role` (error payload = the sqlx error message wrapped into
`AppError::InternalError`, absent row = `Ok none`). -/
def AdminUser.from_request_parts (secret : String) (now : Int) (h : ReqHeaders)
    (fetch_role : Uuid → Except String (Option String)) : Except AppError AdminUser :=
  match h.authorization with
  | none => Except.error AppError.authError
  | some HeaderValue.badEncoding => Except.error AppError.authError
  | some HeaderValue.noBearer => Except.error AppError.authError
  | some (HeaderValue.bearer t) =>
    match decodeToken secret now t with
    | none => Except.error AppError.authError
    | some td =>
      match Uuid.parse_str td.sub with
      | none => Except.error AppError.authError
      | some uid =>
        match fetch_role uid with
        | Except.error e => Except.error (AppError.internalError e)
        | Except.ok none => Except.error AppError.authError
        | Except.ok (some role) =>
          if role ≠ "admin" then Except.error AppError.authError
          else Except.ok ⟨uid⟩

/-- The role-lookup tail of the `AdminUser` extractor (src/auth.rs:111-124),
factored out to state how the admin guard refines the identity guard. -/
def role_lookup_step (fetch_role : Uuid → Except String (Option String)) (uid : Uuid) :
    Except AppError AdminUser :=
  match fetch_role uid with
  | Except.error e => Except.error (AppError.internalError e)
  | Except.ok none => Except.error AppError.authError
  | Except.ok (some role) =>
    if role ≠ "admin" then Except.error AppError.authError
    else Except.ok ⟨uid⟩

/-- A row of the `users` table as touched by the OAuth callback. The columns
listed in the handler's SELECT/UPDATE/INSERT statements are taken from the
source (src/handlers.rs:1325-1396 and src/models.rs:39-51); `google_id` and
`university_major_set` are table columns not carried by the Rust `User`
struct but read or written by the callback's SQL. -/
structure UserRow where
  id : Uuid
  email : String
  password_hash : Option String
  full_name : String
  phone_num : Option String
  image : Option String
  points : Int
  rank : Int
  role : String
  created_at : Int
  google_id : Option String
  university_major_set : Bool
deriving DecidableEq

/-- The database state the callback reads and mutates: the `users` table and
the `user_stats` table (only its `user_id` column matters here). Row order
models the (unspecified) order in which the SQL engine yields rows, so
`fetch_optional`/`fetch_one` take the first element. -/
structure Db where
  users : List UserRow
  stats : List Uuid
deriving DecidableEq

/-- `GoogleUserInfo` (src/models.rs:421-426): the identity returned by the
provider's userinfo endpoint. -/
structure GoogleUserInfo where
  sub : String
  email : String
  name : Option String
  picture : Option String
deriving DecidableEq

/-- `UserResponse` (src/models.rs:76-83): the public user fields serialized
into the redirect's `user` query parameter. -/
structure UserResponse where
  id : Uuid
  full_name : String
  email : String
  image : Option String
  role : String
deriving DecidableEq

/-- The redirect produced at the end of the callback (src/handlers.rs:1420-
1434), structured: `url_base` is `{frontend_url}/auth/callback`; the wire URL
appends `?token=`, the URL-encoded JSON of `user_data`, and
`&needs_profile_completion=true` exactly when `needs_completion` holds. -/
structure RedirectTarget where
  url_base : String
  token : RawToken
  user_data : UserResponse
  needs_completion : Bool
deriving DecidableEq

/-- Result of a successful callback: the mutated database, the resolved user
row (the `RETURNING` row bound to `user` in the handler), and the redirect. -/
structure CallbackOutcome where
  db : Db
  user : UserRow
  redirect : RedirectTarget
deriving DecidableEq

/-- `SELECT ... FROM users WHERE google_id = $1` with `fetch_optional`
(src/handlers.rs:1325-1331). -/
def findByGoogleId (db : Db) (sub : String) : Option UserRow :=
  db.users.find? fun r => r.google_id = some sub

/-- `SELECT ... FROM users WHERE email = $1` with `fetch_optional`
(src/handlers.rs:1350-1356). -/
def findByEmail (db : Db) (email : String) : Option UserRow :=
  db.users.find? fun r => r.email = email

/-- `SELECT ... FROM users WHERE id = $1` row lookup (used by the linking
`RETURNING` and by the `university_major_set` probe). -/
def findById (db : Db) (uid : Uuid) : Option UserRow :=
  db.users.find? fun r => r.id = uid

/-- SQL `COALESCE(a, b)`: the first non-null argument. -/
def coalesce (a b : Option String) : Option String :=
  match a with
  | some x => some x
  | none => b

/-- The per-row effect of `UPDATE users SET email = $1, full_name = $2,
image = $3` in the already-linked branch (src/handlers.rs:1335-1345):
`full_name` falls back to the previously fetched row's name when the
provider sent none (`user_info.name.as_deref().unwrap_or(&user.full_name)`),
and `image` is set to the provider picture unconditionally. -/
def refreshRow (info : GoogleUserInfo) (fallback_name : String) (r : UserRow) : UserRow :=
  { r with
    email := info.email
    full_name := info.name.getD fallback_name
    image := info.picture }

/-- `UPDATE users SET email = $1, full_name = $2, image = $3 WHERE
google_id = $4` applied to the whole table (src/handlers.rs:1335-1345). -/
def refresh_by_google_id (db : Db) (info : GoogleUserInfo) (fallback_name : String) : Db :=
  { db with
    users := db.users.map fun r =>
      if r.google_id = some info.sub then refreshRow info fallback_name r else r }

/-- `UPDATE users SET google_id = $1, image = COALESCE($2, image) WHERE
id = $3` applied to the whole table (src/handlers.rs:1359-1367). -/
def link_google_account (db : Db) (sub : String) (picture : Option String) (target : Uuid) : Db :=
  { db with
    users := db.users.map fun r =>
      if r.id = target then { r with google_id := some sub, image := coalesce picture r.image }
      else r }

/-- The row built by `INSERT INTO users (id, email, password_hash, full_name,
google_id, image, created_at) VALUES ($1, $2, NULL, $3, $4, $5, NOW())`
(src/handlers.rs:1370-1384): explicit NULL password hash, display name
falling back to the email when the provider sent none, the provider avatar,
the provider subject id. Modelled from the spec: the schema file is not part
of `src/`, so columns absent from the INSERT take the schema defaults the
spec describes — the one-time profile-completion flag starts unset for a new
record (§4.4 step 4 and scenario A), and the remaining columns
(`phone_num`, `points`, `rank`, `role`) take neutral defaults that no claim
observes. -/
def newOAuthUser (fresh_id : Uuid) (info : GoogleUserInfo) (now : Int) : UserRow :=
  { id := fresh_id
    email := info.email
    password_hash := none
    full_name := info.name.getD info.email
    phone_num := none
    image := info.picture
    points := 0
    rank := 0
    role := "user"
    created_at := now
    google_id := some info.sub
    university_major_set := false }

/-- The two INSERTs of the no-match branch: the new user row and its
`user_stats` row (src/handlers.rs:1370-1393). -/
def insert_oauth_user (db : Db) (row : UserRow) (fresh_id : Uuid) : Db :=
  { users := db.users ++ [row], stats := db.stats ++ [fresh_id] }

/-- `SELECT university_major_set FROM users WHERE id = $1` with
`fetch_optional` (src/handlers.rs:1399-1403). -/
def fetchProfileFlag (db : Db) (uid : Uuid) : Option Bool :=
  (findById db uid).map fun r => r.university_major_set

/-- The common tail of the callback (src/handlers.rs:1398-1434): probe the
profile-completion flag (`map(|(set,)| !set).unwrap_or(true)`), mint the
token, build the `UserResponse`, resolve `FRONTEND_URL` with its fixed
fallback, and assemble the redirect. -/
def finishFlow (frontend_env : Option String) (secret : String) (now : Int)
    (db : Db) (user : UserRow) : CallbackOutcome :=
  let needs := ((fetchProfileFlag db user.id).map fun set => !set).getD true
  let tok := create_token secret user.id now
  let resp : UserResponse :=
    { id := user.id, full_name := user.full_name, email := user.email
      image := user.image, role := user.role }
  let frontend_url := frontend_env.getD "https://aiclub-uj.com"
  { db := db
    user := user
    redirect :=
      { url_base := frontend_url ++ "/auth/callback"
        token := tok
        user_data := resp
        needs_completion := needs } }

/-- `google_auth_callback` from the point where the provider identity is in
hand (src/handlers.rs:1324-1434). The code exchange and the userinfo fetch
are outbound I/O preceding this logic; their failures abort before any of
the behavior modelled here. `fresh_id` stands for the `Uuid::new_v4()` drawn
in the no-match branch; `frontend_env` is the `FRONTEND_URL` variable.
`none` models a `fetch_one` that finds no row (impossible on the paths the
handler takes, as proved below). -/
def google_auth_callback (frontend_env : Option String) (secret : String) (now : Int)
    (fresh_id : Uuid) (info : GoogleUserInfo) (db : Db) : Option CallbackOutcome :=
  match findByGoogleId db info.sub with
  | some user =>
    let db' := refresh_by_google_id db info user.full_name
    (findByGoogleId db' info.sub).map (finishFlow frontend_env secret now db')
  | none =>
    match findByEmail db info.email with
    | some existing =>
      let db' := link_google_account db info.sub info.picture existing.id
      (findById db' existing.id).map (finishFlow frontend_env secret now db')
    | none =>
      let row := newOAuthUser fresh_id info now
      let db' := insert_oauth_user db row fresh_id
      some (finishFlow frontend_env secret now db' row)

/-! ## Hex and UUID round-trip machinery -/

theorem hexVal_hexChar : ∀ d : Nat, d < 16 → hexVal (hexChar d) = some d := by decide

theorem readHex_toHexBE (k : Nat) (n : Nat) (rest : List Char) :
    ∀ acc, readHex k (toHexBE k n ++ rest) acc = some (acc * 16 ^ k + n % 16 ^ k, rest) := by
  induction k with
  | zero => intro acc; simp [readHex, toHexBE, Nat.mod_one]
  | succ k ih =>
    intro acc
    have hd : n / 16 ^ k % 16 < 16 := Nat.mod_lt _ (by norm_num)
    have key : (acc * 16 + n / 16 ^ k % 16) * 16 ^ k + n % 16 ^ k =
        acc * 16 ^ (k + 1) + n % 16 ^ (k + 1) := by
      rw [pow_succ, Nat.mod_mul]
      ring
    simp only [toHexBE, List.cons_append, readHex, hexVal_hexChar _ hd, List.append_eq]
    rw [ih, key]

theorem readHex_toHexBE_nil (k : Nat) (n : Nat) (acc : Nat) :
    readHex k (toHexBE k n) acc = some (acc * 16 ^ k + n % 16 ^ k, []) := by
  have := readHex_toHexBE k n [] acc
  rwa [List.append_nil] at this

theorem uuid_round_trip (u : Uuid) : Uuid.parse_str (Uuid.toString u) = some u := by
  obtain ⟨⟨v, hv⟩⟩ := u
  have hlt : v < 16 ^ 32 := by
    have h2 : (2 : Nat) ^ 128 = 16 ^ 32 := by norm_num
    omega
  have h24 : v / 16 ^ 24 % 16 ^ 8 = v / 16 ^ 24 := by
    apply Nat.mod_eq_of_lt
    apply Nat.div_lt_of_lt_mul
    calc v < 16 ^ 32 := hlt
    _ = 16 ^ 24 * 16 ^ 8 := by norm_num
  have s20 : v / 16 ^ 24 * 16 ^ 4 + v / 16 ^ 20 % 16 ^ 4 = v / 16 ^ 20 := by
    have h : v / 16 ^ 24 = v / 16 ^ 20 / 16 ^ 4 := by
      rw [Nat.div_div_eq_div_mul]; norm_num
    rw [h, Nat.div_add_mod']
  have s16 : v / 16 ^ 20 * 16 ^ 4 + v / 16 ^ 16 % 16 ^ 4 = v / 16 ^ 16 := by
    have h : v / 16 ^ 20 = v / 16 ^ 16 / 16 ^ 4 := by
      rw [Nat.div_div_eq_div_mul]; norm_num
    rw [h, Nat.div_add_mod']
  have s12 : v / 16 ^ 16 * 16 ^ 4 + v / 16 ^ 12 % 16 ^ 4 = v / 16 ^ 12 := by
    have h : v / 16 ^ 16 = v / 16 ^ 12 / 16 ^ 4 := by
      rw [Nat.div_div_eq_div_mul]; norm_num
    rw [h, Nat.div_add_mod']
  have hfin : v / 16 ^ 12 * 16 ^ 12 + v % 16 ^ 12 = v := Nat.div_add_mod' v (16 ^ 12)
  have hdata : ∀ l : List Char, (⟨l⟩ : String).data = l := fun _ => rfl
  unfold Uuid.toString Uuid.parse_str
  simp only [hdata, readHex_toHexBE, readHex_toHexBE_nil, List.cons_append, zero_mul,
    zero_add, h24, s20, s16, s12, hfin]
  rw [dif_pos hv]

/-! ## Token pipeline evaluation -/

/-- A fixed concrete UUID used by the concrete witnesses below. -/
def uuidZero : Uuid := ⟨⟨0, by norm_num⟩⟩

/-- Helper: full evaluation of the identity guard on a header carrying a
token freshly issued by `create_token` with the matching secret: the outcome
depends only on whether the default-validation expiry check (60-second
leeway) passes. -/
theorem auth_eval_create_token (u : Uuid) (secret : String) (now nowV : Int) :
    AuthUser.from_request_parts secret nowV
        ⟨some (HeaderValue.bearer (create_token secret u now))⟩ =
      if now + 24 * 3600 < nowV - 60 then Except.error AppError.authError
      else Except.ok ⟨u⟩ := by
  unfold AuthUser.from_request_parts create_token decodeToken Claims.new
  simp only [if_pos rfl]
  by_cases h : now + 86400 < nowV - 60
  · simp [h]
  · simp [h, uuid_round_trip]

/-- C2 (amended): token verification enforces the expiry with the
`jsonwebtoken` default 60-second leeway — a freshly issued token verifies
exactly while the wall clock is at most `issue_time + 24h + 60s`, so a token
checked one second before its `exp` is valid, but one checked one second
after its `exp` is still valid; rejection starts only once the clock passes
`exp + 60`. -/
theorem c2_expiry_with_leeway (u : Uuid) (secret : String) (now nowV : Int) :
    AuthUser.from_request_parts secret nowV
        ⟨some (HeaderValue.bearer (create_token secret u now))⟩ =
      if nowV ≤ now + 24 * 3600 + 60 then Except.ok ⟨u⟩
      else Except.error AppError.authError := by
  rw [auth_eval_create_token]
  by_cases h : nowV ≤ now + 24 * 3600 + 60
  · rw [if_neg (by omega), if_pos h]
  · rw [if_pos (by omega), if_neg h]

/-- C2 counterexample: a token issued at time 0 carries `exp = 86400`, yet
verification at 86401 — one second past `exp`, where the claim requires
rejection — still succeeds, because `Validation::default()` applies a
60-second leeway to the expiry check. -/
theorem c2_counterexample :
    (Claims.new uuidZero 0).exp = 86400 ∧
    AuthUser.from_request_parts "s" 86401
        ⟨some (HeaderValue.bearer (create_token "s" uuidZero 0))⟩ =
      Except.ok ⟨uuidZero⟩ := by
  refine ⟨by decide, ?_⟩
  rw [auth_eval_create_token, if_neg (by decide)]

/-- C5: round-trip identity of the token codec — for every UUID, issuing a
token for it and verifying the result at any instant strictly before the
expiry succeeds and yields exactly the same UUID as the principal. -/
theorem c5_round_trip (u : Uuid) (secret : String) (now nowV : Int)
    (h : nowV < now + 24 * 3600) :
    AuthUser.from_request_parts secret nowV
        ⟨some (HeaderValue.bearer (create_token secret u now))⟩ =
      Except.ok ⟨u⟩ := by
  rw [auth_eval_create_token, if_neg (by omega)]

theorem c5_witness :
    AuthUser.from_request_parts "k" 0
        ⟨some (HeaderValue.bearer (create_token "k" uuidZero 0))⟩ =
      Except.ok ⟨uuidZero⟩ :=
  c5_round_trip uuidZero "k" 0 0 (by decide)

/-- C4: the identity guard collapses every credential failure into the same
`AuthError`: a missing `Authorization` header, a header whose bytes do not
decode to a string, a decodable header without the `"Bearer "` marker, and a
bearer token rejected by verification all evaluate to the identical
`Except.error AppError.authError`, and that error renders as status 401 with
body message `Authentication failed`. -/
theorem c4_auth_error_collapse (secret : String) (now : Int) (t : RawToken)
    (ht : decodeToken secret now t = none) :
    AuthUser.from_request_parts secret now ⟨none⟩ =
        Except.error AppError.authError ∧
    AuthUser.from_request_parts secret now ⟨some HeaderValue.badEncoding⟩ =
        Except.error AppError.authError ∧
    AuthUser.from_request_parts secret now ⟨some HeaderValue.noBearer⟩ =
        Except.error AppError.authError ∧
    AuthUser.from_request_parts secret now ⟨some (HeaderValue.bearer t)⟩ =
        Except.error AppError.authError ∧
    AppError.into_response AppError.authError = (401, "Authentication failed") := by
  refine ⟨rfl, rfl, rfl, ?_, rfl⟩
  simp [AuthUser.from_request_parts, ht]

theorem c4_witness :
    AuthUser.from_request_parts "s" 0 ⟨none⟩ = Except.error AppError.authError ∧
    AuthUser.from_request_parts "s" 0 ⟨some (HeaderValue.bearer RawToken.malformed)⟩ =
        Except.error AppError.authError ∧
    AppError.into_response AppError.authError = (401, "Authentication failed") :=
  ⟨(c4_auth_error_collapse "s" 0 RawToken.malformed rfl).1,
   (c4_auth_error_collapse "s" 0 RawToken.malformed rfl).2.2.2.1,
   (c4_auth_error_collapse "s" 0 RawToken.malformed rfl).2.2.2.2⟩

/-! ## Admin guard refinement and decision rule -/

/-- Helper: the admin extractor equals the identity extractor followed by the
role-lookup tail (the source duplicates the extraction code verbatim). -/
theorem admin_eq_auth_bind (secret : String) (now : Int) (h : ReqHeaders)
    (fetch_role : Uuid → Except String (Option String)) :
    AdminUser.from_request_parts secret now h fetch_role =
      (AuthUser.from_request_parts secret now h).bind
        (fun a => role_lookup_step fetch_role a.user_id) := by
  obtain ⟨auth⟩ := h
  cases auth with
  | none => rfl
  | some hv =>
    cases hv with
    | badEncoding => rfl
    | noBearer => rfl
    | bearer t =>
      simp only [AdminUser.from_request_parts, AuthUser.from_request_parts]
      cases decodeToken secret now t with
      | none => rfl
      | some td =>
        cases hp : Uuid.parse_str td.sub with
        | none => simp [hp, Except.bind]
        | some uid => simp [hp, Except.bind, role_lookup_step]

/-- C9: the admin guard's token-extraction phase is equivalent to the
identity guard — the admin extractor is exactly the identity extractor
followed by the role lookup, so any header set the identity guard rejects is
rejected by the admin guard with the very same error, and on any header set
the identity guard accepts, the admin guard continues with the identical
user id into its single role lookup. -/
theorem c9_admin_refines_identity (secret : String) (now : Int) (h : ReqHeaders)
    (fetch_role : Uuid → Except String (Option String)) :
    (AdminUser.from_request_parts secret now h fetch_role =
      (AuthUser.from_request_parts secret now h).bind
        (fun a => role_lookup_step fetch_role a.user_id)) ∧
    (∀ e, AuthUser.from_request_parts secret now h = Except.error e →
      AdminUser.from_request_parts secret now h fetch_role = Except.error e) ∧
    (∀ a, AuthUser.from_request_parts secret now h = Except.ok a →
      AdminUser.from_request_parts secret now h fetch_role =
        role_lookup_step fetch_role a.user_id) := by
  refine ⟨admin_eq_auth_bind secret now h fetch_role, ?_, ?_⟩
  · intro e he
    rw [admin_eq_auth_bind secret now h fetch_role, he]
    rfl
  · intro a ha
    rw [admin_eq_auth_bind secret now h fetch_role, ha]
    rfl

theorem c9_witness :
    AdminUser.from_request_parts "s" 0
        ⟨some (HeaderValue.bearer (create_token "s" uuidZero 0))⟩
        (fun _ => Except.ok (some "admin")) =
      role_lookup_step (fun _ => Except.ok (some "admin")) uuidZero :=
  (c9_admin_refines_identity "s" 0
      ⟨some (HeaderValue.bearer (create_token "s" uuidZero 0))⟩
      (fun _ => Except.ok (some "admin"))).2.2 ⟨uuidZero⟩
    (by rw [auth_eval_create_token, if_neg (by decide)])

/-- C3: the role guard's decision rule after a successful extraction — a
failing lookup yields `InternalError` (rendered 500) and never `AuthError`;
an absent row yields `AuthError`; a present row with any role other than the
literal `"admin"` yields `AuthError`; only the literal `"admin"` role
produces the elevated principal carrying the token's user id. -/
theorem c3_role_guard_decision (secret : String) (now : Int) (h : ReqHeaders)
    (fetch_role : Uuid → Except String (Option String)) (uid : Uuid)
    (hA : AuthUser.from_request_parts secret now h = Except.ok ⟨uid⟩) :
    (∀ e, fetch_role uid = Except.error e →
      AdminUser.from_request_parts secret now h fetch_role =
          Except.error (AppError.internalError e) ∧
      AdminUser.from_request_parts secret now h fetch_role ≠
          Except.error AppError.authError ∧
      (AppError.internalError e).into_response = (500, "Internal server error")) ∧
    (fetch_role uid = Except.ok none →
      AdminUser.from_request_parts secret now h fetch_role =
        Except.error AppError.authError) ∧
    (∀ role, fetch_role uid = Except.ok (some role) → role ≠ "admin" →
      AdminUser.from_request_parts secret now h fetch_role =
        Except.error AppError.authError) ∧
    (fetch_role uid = Except.ok (some "admin") →
      AdminUser.from_request_parts secret now h fetch_role = Except.ok ⟨uid⟩) := by
  have hb := admin_eq_auth_bind secret now h fetch_role
  rw [hA] at hb
  refine ⟨?_, ?_, ?_, ?_⟩
  · intro e he
    rw [hb]
    show role_lookup_step fetch_role uid = _ ∧
      role_lookup_step fetch_role uid ≠ _ ∧ _
    unfold role_lookup_step
    rw [he]
    exact ⟨rfl, by simp, rfl⟩
  · intro he
    rw [hb]
    show role_lookup_step fetch_role uid = _
    unfold role_lookup_step
    rw [he]
  · intro role hr hne
    rw [hb]
    show role_lookup_step fetch_role uid = _
    unfold role_lookup_step
    rw [hr]
    simp [hne]
  · intro hr
    rw [hb]
    show role_lookup_step fetch_role uid = _
    unfold role_lookup_step
    rw [hr]
    simp

theorem c3_witness :
    AdminUser.from_request_parts "s" 0
        ⟨some (HeaderValue.bearer (create_token "s" uuidZero 0))⟩
        (fun _ => Except.ok (some "admin")) =
      Except.ok ⟨uuidZero⟩ :=
  (c3_role_guard_decision "s" 0
      ⟨some (HeaderValue.bearer (create_token "s" uuidZero 0))⟩
      (fun _ => Except.ok (some "admin")) uuidZero
      (by rw [auth_eval_create_token, if_neg (by decide)])).2.2.2 rfl

/-- C10: a token whose signature verifies and whose expiry has not passed,
but whose `sub` claim is not a parseable UUID, is rejected by both guards
with the generic `AuthError` — never an internal error and never a
principal. -/
theorem c10_unparseable_sub (secret : String) (now : Int) (t : RawToken) (c : Claims)
    (fetch_role : Uuid → Except String (Option String))
    (hdec : decodeToken secret now t = some c)
    (hsub : Uuid.parse_str c.sub = none) :
    AuthUser.from_request_parts secret now ⟨some (HeaderValue.bearer t)⟩ =
        Except.error AppError.authError ∧
    AdminUser.from_request_parts secret now ⟨some (HeaderValue.bearer t)⟩ fetch_role =
        Except.error AppError.authError := by
  constructor
  · simp [AuthUser.from_request_parts, hdec, hsub]
  · simp [AdminUser.from_request_parts, hdec, hsub]

theorem c10_witness :
    AuthUser.from_request_parts "s" 0
        ⟨some (HeaderValue.bearer (RawToken.signed ⟨"nope", 100⟩ "s"))⟩ =
        Except.error AppError.authError ∧
    AdminUser.from_request_parts "s" 0
        ⟨some (HeaderValue.bearer (RawToken.signed ⟨"nope", 100⟩ "s"))⟩
        (fun _ => Except.ok (some "admin")) =
        Except.error AppError.authError :=
  c10_unparseable_sub "s" 0 (RawToken.signed ⟨"nope", 100⟩ "s") ⟨"nope", 100⟩
    (fun _ => Except.ok (some "admin")) (by decide) (by decide)

/-! ## OAuth callback branch analysis -/

theorem refresh_keeps_google_id (info : GoogleUserInfo) (fb : String) (r : UserRow) :
    (if r.google_id = some info.sub then refreshRow info fb r else r).google_id =
      r.google_id := by
  split <;> rfl

theorem link_keeps_id (sub : String) (pic : Option String) (t : Uuid) (r : UserRow) :
    (if r.id = t then { r with google_id := some sub, image := coalesce pic r.image }
      else r).id = r.id := by
  split <;> rfl

theorem findByGoogleId_refresh (db : Db) (info : GoogleUserInfo) (fb : String) (row : UserRow)
    (hg : findByGoogleId db info.sub = some row) :
    findByGoogleId (refresh_by_google_id db info fb) info.sub =
      some (refreshRow info fb row) := by
  unfold findByGoogleId at hg
  have hrow : row.google_id = some info.sub := by
    have := List.find?_some hg
    simpa using this
  unfold findByGoogleId refresh_by_google_id
  rw [List.find?_map]
  have hpf : ((fun r : UserRow => decide (r.google_id = some info.sub)) ∘
      fun r => if r.google_id = some info.sub then refreshRow info fb r else r) =
      fun r : UserRow => decide (r.google_id = some info.sub) := by
    funext r
    simp only [Function.comp_apply, refresh_keeps_google_id]
  rw [hpf, hg]
  simp only [Option.map_some']
  rw [if_pos hrow]

theorem findById_of_mem_nodup (db : Db) (row : UserRow) (hmem : row ∈ db.users)
    (hnodup : (db.users.map fun r => r.id).Nodup) :
    findById db row.id = some row := by
  unfold findById
  cases hfind : db.users.find? (fun r => decide (r.id = row.id)) with
  | none =>
    exfalso
    have hx : (db.users.find? (fun r => decide (r.id = row.id))).isSome :=
      List.find?_isSome.mpr ⟨row, hmem, by simp⟩
    rw [hfind] at hx
    simp at hx
  | some r' =>
    have hid : r'.id = row.id := by simpa using List.find?_some hfind
    have hmem' : r' ∈ db.users := List.mem_of_find?_eq_some hfind
    rw [List.inj_on_of_nodup_map hnodup hmem' hmem hid]

theorem findById_link (db : Db) (sub : String) (pic : Option String) (row : UserRow)
    (hmem : row ∈ db.users)
    (hnodup : (db.users.map fun r => r.id).Nodup) :
    findById (link_google_account db sub pic row.id) row.id =
      some { row with google_id := some sub, image := coalesce pic row.image } := by
  have h1 : db.users.find? (fun r => decide (r.id = row.id)) = some row := by
    have h := findById_of_mem_nodup db row hmem hnodup
    unfold findById at h
    exact h
  unfold findById link_google_account
  rw [List.find?_map]
  have hpf : ((fun r : UserRow => decide (r.id = row.id)) ∘
      fun r => if r.id = row.id then
        { r with google_id := some sub, image := coalesce pic r.image } else r) =
      fun r : UserRow => decide (r.id = row.id) := by
    funext r
    simp only [Function.comp_apply, link_keeps_id]
  rw [hpf, h1]
  simp

theorem findById_link_isSome (db : Db) (sub : String) (pic : Option String) (row : UserRow)
    (hmem : row ∈ db.users) :
    ∃ r', findById (link_google_account db sub pic row.id) row.id = some r' := by
  unfold findById link_google_account
  cases hfind : (db.users.map fun r => if r.id = row.id then
      { r with google_id := some sub, image := coalesce pic r.image } else r).find?
        (fun r => decide (r.id = row.id)) with
  | none =>
    exfalso
    have hmm : (if row.id = row.id then
        { row with google_id := some sub, image := coalesce pic row.image } else row) ∈
        db.users.map fun r => if r.id = row.id then
          { r with google_id := some sub, image := coalesce pic r.image } else r :=
      List.mem_map_of_mem _ hmem
    have hx : ((db.users.map fun r => if r.id = row.id then
        { r with google_id := some sub, image := coalesce pic r.image } else r).find?
          (fun r => decide (r.id = row.id))).isSome :=
      List.find?_isSome.mpr ⟨_, hmm, by simp⟩
    rw [hfind] at hx
    simp at hx
  | some r' => exact ⟨r', rfl⟩

theorem fetchProfileFlag_isSome (db : Db) (u : UserRow) (hu : u ∈ db.users) :
    ∃ b, fetchProfileFlag db u.id = some b := by
  unfold fetchProfileFlag findById
  cases hfind : db.users.find? (fun r => decide (r.id = u.id)) with
  | none =>
    exfalso
    have hx : (db.users.find? (fun r => decide (r.id = u.id))).isSome :=
      List.find?_isSome.mpr ⟨u, hu, by simp⟩
    rw [hfind] at hx
    simp at hx
  | some r => exact ⟨r.university_major_set, rfl⟩

theorem finishFlow_db (env : Option String) (secret : String) (now : Int)
    (db : Db) (u : UserRow) : (finishFlow env secret now db u).db = db := rfl

theorem finishFlow_user (env : Option String) (secret : String) (now : Int)
    (db : Db) (u : UserRow) : (finishFlow env secret now db u).user = u := rfl

theorem finishFlow_base (env : Option String) (secret : String) (now : Int)
    (db : Db) (u : UserRow) :
    (finishFlow env secret now db u).redirect.url_base =
      env.getD "https://aiclub-uj.com" ++ "/auth/callback" := rfl

theorem finishFlow_token (env : Option String) (secret : String) (now : Int)
    (db : Db) (u : UserRow) :
    (finishFlow env secret now db u).redirect.token = create_token secret u.id now := rfl

theorem finishFlow_user_data (env : Option String) (secret : String) (now : Int)
    (db : Db) (u : UserRow) :
    (finishFlow env secret now db u).redirect.user_data =
      ⟨u.id, u.full_name, u.email, u.image, u.role⟩ := rfl

theorem finishFlow_needs (env : Option String) (secret : String) (now : Int)
    (db : Db) (u : UserRow) :
    (finishFlow env secret now db u).redirect.needs_completion =
      ((fetchProfileFlag db u.id).map fun s => !s).getD true := rfl

/-- C6: resolution precedence is first-match-wins — whenever some user row
already carries the provider subject id, the callback resolves to that row:
its email, display name (with the provider name falling back to the stored
name), and avatar are refreshed from the fresh provider identity, its id is
reused for the token, no row is added or removed, the stats table is
untouched, and every row not carrying that subject id is left unchanged. -/
theorem c6_precedence_existing_link (env : Option String) (secret : String) (now : Int)
    (fresh : Uuid) (info : GoogleUserInfo) (db : Db) (row : UserRow)
    (hg : findByGoogleId db info.sub = some row) :
    ∃ out,
      google_auth_callback env secret now fresh info db = some out ∧
      out.user.id = row.id ∧
      out.user.email = info.email ∧
      out.user.full_name = info.name.getD row.full_name ∧
      out.user.image = info.picture ∧
      out.db.users.length = db.users.length ∧
      out.db.stats = db.stats ∧
      (∀ r ∈ db.users, r.google_id ≠ some info.sub → r ∈ out.db.users) ∧
      out.redirect.token = create_token secret row.id now := by
  have hfind := findByGoogleId_refresh db info row.full_name row hg
  refine ⟨finishFlow env secret now (refresh_by_google_id db info row.full_name)
      (refreshRow info row.full_name row), ?_, rfl, rfl, rfl, rfl, ?_, rfl, ?_, rfl⟩
  · simp only [google_auth_callback, hg, hfind, Option.map_some']
  · exact List.length_map _ _
  · intro r hr hne
    have hfr : (if r.google_id = some info.sub then refreshRow info row.full_name r else r)
        = r := if_neg hne
    have hm := List.mem_map_of_mem
      (fun r => if r.google_id = some info.sub then refreshRow info row.full_name r else r) hr
    simp only [hfr] at hm
    rw [finishFlow_db]
    exact hm

/-- C1 (amended): in the email-match branch the external id is attached to
the existing record and the record's internal id is kept, but the avatar is
set by `COALESCE($2, image)` with the provider picture as the first
argument: whenever the provider supplies a picture it overwrites the stored
avatar, and the stored avatar survives only when the provider supplies
none. Email, display name and password hash are untouched; no row is added
or removed and the stats table is untouched; the token is minted for the
existing id. (Primary keys are assumed unique, as the schema guarantees.) -/
theorem c1_email_link_amended (env : Option String) (secret : String) (now : Int)
    (fresh : Uuid) (info : GoogleUserInfo) (db : Db) (row : UserRow)
    (hg : findByGoogleId db info.sub = none)
    (he : findByEmail db info.email = some row)
    (hnodup : (db.users.map fun r => r.id).Nodup) :
    ∃ out,
      google_auth_callback env secret now fresh info db = some out ∧
      out.user.id = row.id ∧
      out.user.google_id = some info.sub ∧
      out.user.image = coalesce info.picture row.image ∧
      out.user.email = row.email ∧
      out.user.full_name = row.full_name ∧
      out.user.password_hash = row.password_hash ∧
      out.db.users.length = db.users.length ∧
      out.db.stats = db.stats ∧
      out.redirect.token = create_token secret row.id now := by
  have hmem : row ∈ db.users := List.mem_of_find?_eq_some he
  have hfind := findById_link db info.sub info.picture row hmem hnodup
  refine ⟨finishFlow env secret now (link_google_account db info.sub info.picture row.id)
      { row with google_id := some info.sub, image := coalesce info.picture row.image },
    ?_, rfl, rfl, rfl, rfl, rfl, rfl, ?_, rfl, rfl⟩
  · simp only [google_auth_callback, hg, he, hfind, Option.map_some']
  · exact List.length_map _ _

/-- C7: the no-match branch creates a new user row under the fresh
identifier with the external email, display name falling back to the email,
the provider avatar, the provider subject id, and no password credential; a
stats row for the fresh id is appended; the token is minted for the fresh
id; and the redirect carries `needs_profile_completion=true` (the new row's
profile-completion flag starts unset). -/
theorem c7_no_match_creation (env : Option String) (secret : String) (now : Int)
    (fresh : Uuid) (info : GoogleUserInfo) (db : Db)
    (hg : findByGoogleId db info.sub = none)
    (he : findByEmail db info.email = none)
    (hfresh : ∀ r ∈ db.users, r.id ≠ fresh) :
    ∃ out,
      google_auth_callback env secret now fresh info db = some out ∧
      out.user.id = fresh ∧
      out.user.email = info.email ∧
      out.user.full_name = info.name.getD info.email ∧
      out.user.image = info.picture ∧
      out.user.password_hash = none ∧
      out.user.google_id = some info.sub ∧
      out.db.users = db.users ++ [newOAuthUser fresh info now] ∧
      out.db.stats = db.stats ++ [fresh] ∧
      out.redirect.token = create_token secret fresh now ∧
      out.redirect.needs_completion = true := by
  refine ⟨finishFlow env secret now (insert_oauth_user db (newOAuthUser fresh info now) fresh)
      (newOAuthUser fresh info now), ?_, rfl, rfl, rfl, rfl, rfl, rfl, rfl, rfl, rfl, ?_⟩
  · simp only [google_auth_callback, hg, he]
  · rw [finishFlow_needs]
    have h1 : db.users.find? (fun r => decide (r.id = fresh)) = none := by
      rw [List.find?_eq_none]
      intro x hx
      simp [hfresh x hx]
    have h2 : fetchProfileFlag (insert_oauth_user db (newOAuthUser fresh info now) fresh)
        (newOAuthUser fresh info now).id = some false := by
      unfold fetchProfileFlag findById insert_oauth_user
      have hproj : (newOAuthUser fresh info now).id = fresh := rfl
      rw [hproj, List.find?_append, h1]
      rw [List.find?_cons_of_pos _ (by simp [hproj])]
      rfl
    rw [h2]
    rfl

/-- C8: every callback ends in a redirect whose base is
`{FRONTEND_URL}/auth/callback` with `FRONTEND_URL` falling back to the fixed
default when the environment variable is absent, carrying the token freshly
minted for the resolved user's id and the public user fields of the resolved
row, and the `needs_profile_completion=true` marker is set exactly when the
resolved user's explicit profile-completion flag is unset. -/
theorem c8_redirect_shape (env : Option String) (secret : String) (now : Int)
    (fresh : Uuid) (info : GoogleUserInfo) (db : Db) :
    ∃ out flag,
      google_auth_callback env secret now fresh info db = some out ∧
      out.redirect.url_base = env.getD "https://aiclub-uj.com" ++ "/auth/callback" ∧
      out.redirect.token = create_token secret out.user.id now ∧
      out.redirect.user_data = ⟨out.user.id, out.user.full_name, out.user.email,
        out.user.image, out.user.role⟩ ∧
      fetchProfileFlag out.db out.user.id = some flag ∧
      out.redirect.needs_completion = !flag := by
  cases hg : findByGoogleId db info.sub with
  | some row =>
    have hfind := findByGoogleId_refresh db info row.full_name row hg
    have hfind' : (refresh_by_google_id db info row.full_name).users.find?
        (fun r => decide (r.google_id = some info.sub)) =
        some (refreshRow info row.full_name row) := hfind
    have hmem : refreshRow info row.full_name row ∈
        (refresh_by_google_id db info row.full_name).users :=
      List.mem_of_find?_eq_some hfind'
    obtain ⟨b, hb⟩ := fetchProfileFlag_isSome _ _ hmem
    refine ⟨finishFlow env secret now (refresh_by_google_id db info row.full_name)
        (refreshRow info row.full_name row), b, ?_, rfl, rfl, rfl, ?_, ?_⟩
    · simp only [google_auth_callback, hg, hfind, Option.map_some']
    · rw [finishFlow_db, finishFlow_user]
      exact hb
    · rw [finishFlow_needs, hb]
      rfl
  | none =>
    cases he : findByEmail db info.email with
    | some existing =>
      have he' : db.users.find? (fun r => decide (r.email = info.email)) = some existing := he
      have hmem : existing ∈ db.users := List.mem_of_find?_eq_some he'
      obtain ⟨r', hr'⟩ := findById_link_isSome db info.sub info.picture existing hmem
      have hr'' : (link_google_account db info.sub info.picture existing.id).users.find?
          (fun r => decide (r.id = existing.id)) = some r' := hr'
      have hmem' : r' ∈ (link_google_account db info.sub info.picture existing.id).users :=
        List.mem_of_find?_eq_some hr''
      obtain ⟨b, hb⟩ := fetchProfileFlag_isSome _ _ hmem'
      refine ⟨finishFlow env secret now
          (link_google_account db info.sub info.picture existing.id) r', b,
        ?_, rfl, rfl, rfl, ?_, ?_⟩
      · simp only [google_auth_callback, hg, he, hr', Option.map_some']
      · rw [finishFlow_db, finishFlow_user]
        exact hb
      · rw [finishFlow_needs, hb]
        rfl
    | none =>
      have hmem : newOAuthUser fresh info now ∈
          (insert_oauth_user db (newOAuthUser fresh info now) fresh).users := by
        unfold insert_oauth_user
        exact List.mem_append_right _ (List.mem_singleton_self _)
      obtain ⟨b, hb⟩ := fetchProfileFlag_isSome _ _ hmem
      refine ⟨finishFlow env secret now
          (insert_oauth_user db (newOAuthUser fresh info now) fresh)
          (newOAuthUser fresh info now), b, ?_, rfl, rfl, rfl, ?_, ?_⟩
      · simp only [google_auth_callback, hg, he]
      · rw [finishFlow_db, finishFlow_user]
        exact hb
      · rw [finishFlow_needs, hb]
        rfl

/-! ## Concrete witnesses for the OAuth claims -/

/-- A second fixed concrete UUID, distinct from `uuidZero`. -/
def uuidOne : Uuid := ⟨⟨1, by norm_num⟩⟩

/-- A concrete provider identity that supplies a name and a picture. -/
def infoW : GoogleUserInfo :=
  { sub := "g-sub", email := "a@b.c", name := some "Ada", picture := some "new.png" }

/-- A concrete password-based user row with an uploaded avatar and no linked
external id, sharing `infoW`'s email. -/
def rowW : UserRow :=
  { id := uuidZero, email := "a@b.c", password_hash := some "h", full_name := "Old Name"
    phone_num := none, image := some "old.png", points := 3, rank := 1, role := "user"
    created_at := 0, google_id := none, university_major_set := true }

/-- A concrete database holding only `rowW`. -/
def dbW : Db := { users := [rowW], stats := [uuidZero] }

/-- C1 counterexample: in the email-match branch, for the concrete state
where the matched record carries the uploaded avatar `old.png` and the
provider supplies `new.png`, the resolved record's avatar is `new.png` — it
does not stay unchanged as the claim requires, because the update uses
`COALESCE($2, image)` with the provider picture first. -/
theorem c1_counterexample :
    findByGoogleId dbW infoW.sub = none ∧
    findByEmail dbW infoW.email = some rowW ∧
    rowW.image = some "old.png" ∧
    infoW.picture = some "new.png" ∧
    (google_auth_callback none "s" 0 uuidOne infoW dbW).map (fun out => out.user.image) =
      some (some "new.png") ∧
    (google_auth_callback none "s" 0 uuidOne infoW dbW).map (fun out => out.user.image) ≠
      some rowW.image := by
  refine ⟨by decide, by decide, rfl, rfl, by decide, by decide⟩

theorem c1_witness :
    ∃ out,
      google_auth_callback none "s" 0 uuidOne infoW dbW = some out ∧
      out.user.id = rowW.id ∧
      out.user.google_id = some infoW.sub ∧
      out.user.image = coalesce infoW.picture rowW.image ∧
      out.user.email = rowW.email ∧
      out.user.full_name = rowW.full_name ∧
      out.user.password_hash = rowW.password_hash ∧
      out.db.users.length = dbW.users.length ∧
      out.db.stats = dbW.stats ∧
      out.redirect.token = create_token "s" rowW.id 0 :=
  c1_email_link_amended none "s" 0 uuidOne infoW dbW rowW (by decide) (by decide) (by decide)

/-- A concrete user row already linked to `infoW`'s provider subject id. -/
def rowLinkedW : UserRow :=
  { id := uuidZero, email := "old@b.c", password_hash := none, full_name := "Old Name"
    phone_num := none, image := some "old.png", points := 0, rank := 0, role := "user"
    created_at := 0, google_id := some "g-sub", university_major_set := true }

/-- A concrete database holding only `rowLinkedW`. -/
def dbLinkedW : Db := { users := [rowLinkedW], stats := [uuidZero] }

theorem c6_witness :
    ∃ out,
      google_auth_callback none "s" 0 uuidOne infoW dbLinkedW = some out ∧
      out.user.id = rowLinkedW.id ∧
      out.user.email = infoW.email ∧
      out.user.full_name = infoW.name.getD rowLinkedW.full_name ∧
      out.user.image = infoW.picture ∧
      out.db.users.length = dbLinkedW.users.length ∧
      out.db.stats = dbLinkedW.stats ∧
      (∀ r ∈ dbLinkedW.users, r.google_id ≠ some infoW.sub → r ∈ out.db.users) ∧
      out.redirect.token = create_token "s" rowLinkedW.id 0 :=
  c6_precedence_existing_link none "s" 0 uuidOne infoW dbLinkedW rowLinkedW (by decide)

/-- The empty concrete database. -/
def dbEmptyW : Db := { users := [], stats := [] }

theorem c7_witness :
    ∃ out,
      google_auth_callback none "s" 0 uuidOne infoW dbEmptyW = some out ∧
      out.user.id = uuidOne ∧
      out.user.email = infoW.email ∧
      out.user.full_name = infoW.name.getD infoW.email ∧
      out.user.image = infoW.picture ∧
      out.user.password_hash = none ∧
      out.user.google_id = some infoW.sub ∧
      out.db.users = dbEmptyW.users ++ [newOAuthUser uuidOne infoW 0] ∧
      out.db.stats = dbEmptyW.stats ++ [uuidOne] ∧
      out.redirect.token = create_token "s" uuidOne 0 ∧
      out.redirect.needs_completion = true :=
  c7_no_match_creation none "s" 0 uuidOne infoW dbEmptyW rfl rfl (by simp [dbEmptyW])
